import Mathlib

/-!
Verification of the mystic_tales Flask application (src/app.py) against its
natural-language specification.

The application is embedded shallowly:

* the PostgreSQL tables (`users`, `characters`, `character_greetings`,
  `messages`) become lists inside a `DB` structure; the `created_at` column
  of `messages` (which defaults to the insertion time) is modelled by a
  logical clock `DB.clock` that `store_message` stamps onto the new row and
  then increments, so later insertions carry strictly larger `createdAt`;
* `ORDER BY created_at ASC` is modelled by an explicit insertion sort on the
  `createdAt` field, and `LIMIT n` by `List.take n`;
* the Flask `session` dict becomes a `Session` structure of optional fields;
* the Gemini backend (`model.generate_content`) is an arbitrary function
  `gen : String → String` from the prompt to the returned text, and the
  prompts handed to it are recorded so that theorems can talk about what was
  generated;
* `random.choice` over the greeting rows is modelled by an arbitrary index
  `choose : Nat` reduced modulo the number of rows;
* the werkzeug password hash is an arbitrary function handed to `login`
  (`check_password_hash`) and `signup` (`generate_password_hash`);
* `time.time` / `time.sleep` in the rate limiter are modelled by an explicit
  rational clock: a call receives the current time, sleeping advances the
  clock by exactly the requested amount, and the wake-up instant is the
  effective start of the body.
-/

/-- Embedding of Python `str.strip()` with no argument: remove leading and
trailing whitespace.  (Defined over the character list so that it reduces in
the kernel, unlike `String.trim`.) -/
def py_strip (s : String) : String :=
  ⟨(((s.toList.dropWhile Char.isWhitespace).reverse).dropWhile Char.isWhitespace).reverse⟩

/-- Worker for `py_replace_delete`: scan left to right; where the pattern
matches, skip it and resume after it; otherwise keep the character.  The
fuel argument (at least the length of the list) only forces structural
termination. -/
def delOccAux (p : List Char) : Nat → List Char → List Char
  | _, [] => []
  | 0, l => l
  | fuel + 1, c :: rest =>
      if p.isPrefixOf (c :: rest) then delOccAux p fuel ((c :: rest).drop p.length)
      else c :: delOccAux p fuel rest

/-- Embedding of Python `s.replace(p, "")` for a non-empty pattern `p`: a
single left-to-right pass deleting every non-overlapping occurrence of `p`,
resuming after each deleted occurrence. -/
def py_replace_delete (s p : String) : String :=
  ⟨delOccAux p.toList s.toList.length s.toList⟩

/-- A row of the `characters` table, as selected by `fetch_characters`
(src/app.py lines 137-153). -/
structure Character where
  id : Nat
  name : String
  descr : String
  avatar : String
  prompt : String
deriving Repr, DecidableEq

/-- A row of the `messages` table as selected by `fetch_messages`
(src/app.py lines 173-189): sender, text, avatar, created_at, keyed by
character_code. -/
structure MsgRow where
  characterCode : String
  sender : String
  text : String
  avatar : Option String
  createdAt : Nat
deriving Repr, DecidableEq

/-- A row of the `users` table (id, username, password_hash). -/
structure UserRow where
  id : Nat
  username : String
  passwordHash : String
deriving Repr, DecidableEq

/-- The database state.  `characters` is keyed by `code_name` (the dict built
by `fetch_characters`); `greetings` holds the join of `character_greetings`
with `characters`, keyed by `code_name`; `clock` models the wall time used to
fill the `created_at` default of `messages`. -/
structure DB where
  users : List UserRow
  characters : List (String × Character)
  greetings : List (String × String)
  messages : List MsgRow
  clock : Nat
deriving Repr, DecidableEq

/-- The Flask session: `user_id` and `username` are set by `login`
(src/app.py lines 116-117), `character` by the chat view (line 232). -/
structure Session where
  userId : Option Nat
  username : Option String
  character : Option String
deriving Repr, DecidableEq

/-- Embedding of `fetch_characters` (src/app.py lines 137-153): the dict of
all character rows keyed by code_name. -/
def fetch_characters (db : DB) : List (String × Character) :=
  db.characters

/-- Embedding of `fetch_greetings` (src/app.py lines 155-168): the greetings
joined to the given code_name; `random.choice` over them is modelled by the
arbitrary index `choose` taken modulo the number of rows; with no rows the
literal "Greetings." is returned. -/
def fetch_greetings (db : DB) (code : String) (choose : Nat) : String :=
  let rows := (db.greetings.filter (fun g => g.1 == code)).map (fun g => g.2)
  if rows.isEmpty then "Greetings." else rows.getD (choose % rows.length) "Greetings."

/-- Embedding of `fetch_messages` (src/app.py lines 173-189).  The SQL is
`SELECT ... WHERE character_code = %s ORDER BY created_at ASC` with
` LIMIT %s` appended only when the Python value `limit` is truthy, i.e. not
`None` (here `none`) and not `0`.  `ORDER BY created_at ASC` is the insertion
sort on `createdAt`; `LIMIT n` takes the first `n` rows of the sorted
ascending list. -/
def fetch_messages (db : DB) (code : String) (limit : Option Nat) : List MsgRow :=
  let rows := List.insertionSort (fun a b => a.createdAt ≤ b.createdAt)
    (db.messages.filter (fun m => m.characterCode == code))
  match limit with
  | some n => if n ≠ 0 then rows.take n else rows
  | none => rows

/-- Embedding of `store_message` (src/app.py lines 191-198): INSERT a row
whose `created_at` defaults to the current time, modelled by stamping
`db.clock` and advancing the clock. -/
def store_message (db : DB) (code sender text : String) (avatar : Option String) : DB :=
  { db with
    messages := db.messages ++ [⟨code, sender, text, avatar, db.clock⟩],
    clock := db.clock + 1 }

/-- Outcome of the signup POST handler (src/app.py lines 69-99). -/
inductive SignupResult where
  | redirectSignup (flash : String)
  | redirectLogin (flash : String)
  | crash (err : String)
deriving Repr, DecidableEq

/-- Embedding of the POST branch of `signup` (src/app.py lines 71-97),
parametric in the werkzeug `generate_password_hash`.  Both form fields are
stripped; empty fields flash and redirect back to signup.  The INSERT hits
the UNIQUE constraint on `username` when the name exists, raising
`UniqueViolation`; the handler `except psycopg2.Error` then evaluates the
name `psycopg2`, which the file never imports (only `psycopg` is imported,
src/app.py line 9), so a `NameError` escapes and Flask answers 500.  That
path is the `crash` outcome. -/
def signup (hashFn : String → String) (db : DB) (usernameInput passwordInput : String) :
    DB × SignupResult :=
  let username := py_strip usernameInput
  let password := py_strip passwordInput
  if username = "" ∨ password = "" then
    (db, .redirectSignup "All fields are required.")
  else
    let passwordHash := hashFn password
    if (db.users.filter (fun u => u.username == username)).isEmpty then
      ({ db with users := db.users ++ [⟨db.users.length + 1, username, passwordHash⟩] },
        .redirectLogin "Signup successful! Please log in.")
    else
      (db, .crash "NameError: name psycopg2 is not defined")

/-- Outcome of the login POST handler (src/app.py lines 102-124). -/
inductive LoginResult where
  | success (userId : Nat) (username flash : String)
  | failure (flash : String)
deriving Repr, DecidableEq

/-- Embedding of the POST branch of `login` (src/app.py lines 104-122),
parametric in the werkzeug `check_password_hash`.  The SELECT by username is
`find?` on the users list; a missing row and a failed hash check fall into
the same `else` branch, flashing the one literal
"Invalid username or password." and redirecting back to login. -/
def login (checkHash : String → String → Bool) (db : DB)
    (usernameInput passwordInput : String) : LoginResult :=
  let username := py_strip usernameInput
  let password := py_strip passwordInput
  match db.users.find? (fun r => r.username == username) with
  | some r =>
      if checkHash r.passwordHash password then
        .success r.id username "Login successful!"
      else
        .failure "Invalid username or password."
  | none => .failure "Invalid username or password."

/-- Outcome of the chat view (src/app.py lines 225-241). -/
inductive ChatOutcome where
  | redirectToLogin
  | notFound
  | render (character : Character) (story : List MsgRow)
deriving Repr, DecidableEq

/-- Embedding of the `chat` route (src/app.py lines 225-241), including its
`login_required` wrapper (lines 59-66): a session without `user_id` is
redirected to login before the body runs.  An unknown character code yields
404.  Otherwise the code is written to the session, the full conversation is
fetched, and if it is empty a single greeting message is stored — sender and
character_code both the code, text the name of the character wrapped in the
fixed intently-looking frame around `fetch_greetings`, avatar that of the
character — and the conversation is fetched again. -/
def chat (db : DB) (sess : Session) (character : String) (choose : Nat) :
    DB × Session × ChatOutcome :=
  if sess.userId = none then (db, sess, .redirectToLogin)
  else
    match (fetch_characters db).lookup character with
    | none => (db, sess, .notFound)
    | some c =>
        let sess1 : Session := { sess with character := some character }
        let story := fetch_messages db character none
        if story.isEmpty then
          let greetingText :=
            "*" ++ c.name ++ " looks at you intently* " ++ fetch_greetings db character choose
          let db1 := store_message db character character greetingText (some c.avatar)
          (db1, sess1, .render c (fetch_messages db1 character none))
        else
          (db, sess1, .render c story)

/-- The string of the single apostrophe character (code point 39). -/
def apostrophe : String := String.singleton (Char.ofNat 39)

/-- The second literal phrase deleted by the post-processing of
`send_message` (src/app.py line 287): I-apostrophe-ll-space-try. -/
def phraseIllTry : String := "I" ++ apostrophe ++ "ll try"

/-- Embedding of the post-processing of the generated text
(src/app.py lines 286-287): strip first, then delete every occurrence of
"I understand" in one left-to-right pass of `str.replace`, then likewise the
phrase `phraseIllTry`. -/
def post_process (t : String) : String :=
  py_replace_delete (py_replace_delete (py_strip t) "I understand") phraseIllTry

/-- JSON-level outcome of the send_message route (src/app.py lines 243-298). -/
inductive SendResult where
  | badRequest (error : String)
  | notFound (error : String)
  | ok (sender text : String) (avatar : Option String)
deriving Repr, DecidableEq

/-- Result of one send_message invocation: the database afterwards and the
list of prompts that were handed to the generation backend (empty when
generation was never invoked). -/
structure SendOutcome where
  db : DB
  result : SendResult
  genPrompts : List String
deriving Repr, DecidableEq

/-- Embedding of the prompt f-string of `send_message`
(src/app.py lines 265-272): leading newline, behavior prompt of the
character, blank line, the fixed header, the rendered context, blank line,
the user line, trailing newline. -/
def build_prompt (characterPrompt contextText userMessage : String) : String :=
  "\n" ++ characterPrompt ++
    "\n\nConversation history (most recent up to 10 messages):\n" ++ contextText ++
    "\n\nUser says: " ++ userMessage ++ "\n"

/-- Embedding of `send_message` (src/app.py lines 243-298), parametric in the
generation backend `gen`.  The payload is `none` when the request carries no
JSON body or no message key (the 400 "Invalid request" path).  The route has
no `login_required` wrapper — only `rate_limit` (line 244) — so the session
`user_id` is never consulted; the only session check is for an active
`character`.  On the success path the stripped user message is stored, the
context window is `fetch_messages` with `limit=10`, the prompt is built,
generation is invoked once, its text is post-processed, stored, and
returned. -/
def send_message (gen : String → String) (db : DB) (sess : Session)
    (payload : Option String) : SendOutcome :=
  match payload with
  | none => ⟨db, .badRequest "Invalid request", []⟩
  | some rawMessage =>
      let userMessage := py_strip rawMessage
      match sess.character with
      | none => ⟨db, .badRequest "No active character session", []⟩
      | some character =>
          match (fetch_characters db).lookup character with
          | none => ⟨db, .notFound "Character not found", []⟩
          | some c =>
              let db1 := store_message db character "user" userMessage none
              let recentMsgs := fetch_messages db1 character (some 10)
              let contextText :=
                String.intercalate "\n" (recentMsgs.map (fun m => m.sender ++ ": " ++ m.text))
              let modelPrompt := build_prompt c.prompt contextText userMessage
              let botResponse := post_process (gen modelPrompt)
              let db2 := store_message db1 character character botResponse (some c.avatar)
              ⟨db2, .ok character botResponse (some c.avatar), [modelPrompt]⟩

/-- Outcome of the new_story route (src/app.py lines 300-322). -/
inductive NewStoryOutcome where
  | redirectChat (character : String)
  | crash (err : String)
deriving Repr, DecidableEq

/-- Embedding of the character resolution of `new_story`
(src/app.py lines 302-307): the query parameter defaults to "eldrin" when
absent, and an unknown code also falls back to "eldrin". -/
def new_story_target (db : DB) (reqCharacter : Option String) : String :=
  let req := reqCharacter.getD "eldrin"
  match (fetch_characters db).lookup req with
  | some _ => req
  | none => "eldrin"

/-- Embedding of the body of `new_story` after character resolution
(src/app.py lines 309-322): DELETE every message row of the resolved
character_code, store one fresh greeting (same wrapped text as the chat
view), redirect to the chat view.  When even "eldrin" is not in the
characters dict the subscript raises `KeyError` (no handler), modelled by
the `crash` outcome. -/
def new_story_core (db : DB) (req : String) (choose : Nat) : DB × NewStoryOutcome :=
  match (fetch_characters db).lookup req with
  | none => (db, .crash "KeyError: eldrin")
  | some c =>
      let db1 := { db with messages := db.messages.filter (fun m => !(m.characterCode == req)) }
      let greetingText :=
        "*" ++ c.name ++ " looks at you intently* " ++ fetch_greetings db1 req choose
      let db2 := store_message db1 req req greetingText (some c.avatar)
      (db2, .redirectChat req)

/-- Embedding of `new_story` (src/app.py lines 300-322): resolve the target
code, then run the reset body on it. -/
def new_story (db : DB) (reqCharacter : Option String) (choose : Nat) :
    DB × NewStoryOutcome :=
  new_story_core db (new_story_target db reqCharacter) choose

/-- Result of one pass through the `rate_limit` wrapper
(src/app.py lines 43-56): the instant at which the wrapped body starts
running, and the value written to the shared `last_called` before the body
is entered. -/
structure RateLimitResult where
  bodyStart : ℚ
  lastCalled : ℚ
deriving Repr, DecidableEq

/-- Embedding of one invocation of the `rate_limit(max_per_minute)` wrapper
(src/app.py lines 43-56) on an explicit clock: `lastCalled` is the shared
`last_called` closure variable, `now` the value of `time.time()` on entry.
If less than `interval = 60 / max_per_minute` has elapsed, the call sleeps
exactly the remaining `interval - elapsed`; `last_called` is then re-read
from the clock — i.e. set to the unblocked start instant — before `f` runs,
so `bodyStart = lastCalled` always. -/
def rate_limit (maxPerMinute : ℚ) (lastCalled now : ℚ) : RateLimitResult :=
  let interval := 60 / maxPerMinute
  let elapsed := now - lastCalled
  if elapsed < interval then
    let start := now + (interval - elapsed)
    ⟨start, start⟩
  else
    ⟨now, now⟩

/-!  Well-formedness of the message table, and the key consequence that the
`ORDER BY created_at ASC` of `fetch_messages` is the identity on the rows
filtered by character_code. -/

/-- Invariant of the modelled database: message rows carry strictly
increasing created_at stamps in table order, all of them below the clock.
It holds for an empty table and is preserved by `store_message`, which
stamps the current clock on the new last row. -/
def DBInv (db : DB) : Prop :=
  db.messages.Pairwise (fun a b => a.createdAt < b.createdAt) ∧
  ∀ m ∈ db.messages, m.createdAt < db.clock

theorem DBInv_store (db : DB) (code sender text : String) (avatar : Option String)
    (h : DBInv db) : DBInv (store_message db code sender text avatar) := by
  obtain ⟨hp, hc⟩ := h
  refine ⟨?_, ?_⟩
  · simp only [store_message, List.pairwise_append]
    refine ⟨hp, List.pairwise_singleton _ _, ?_⟩
    intro a ha b hb
    simp only [List.mem_singleton] at hb
    subst hb
    exact hc a ha
  · intro m hm
    simp only [store_message, List.mem_append, List.mem_singleton] at hm
    rcases hm with hm | hm
    · exact Nat.lt_succ_of_lt (hc m hm)
    · subst hm
      exact Nat.lt_succ_self _

theorem fetch_messages_sorted_eq (db : DB) (code : String) (h : DBInv db) :
    List.insertionSort (fun a b => a.createdAt ≤ b.createdAt)
      (db.messages.filter (fun m => m.characterCode == code)) =
      db.messages.filter (fun m => m.characterCode == code) :=
  List.Sorted.insertionSort_eq ((h.1.filter _).imp fun hab => le_of_lt hab)

theorem fetch_messages_none_eq (db : DB) (code : String) (h : DBInv db) :
    fetch_messages db code none = db.messages.filter (fun m => m.characterCode == code) := by
  unfold fetch_messages
  exact fetch_messages_sorted_eq db code h

theorem fetch_messages_some_eq (db : DB) (code : String) (n : Nat) (hn : n ≠ 0) (h : DBInv db) :
    fetch_messages db code (some n) =
      (db.messages.filter (fun m => m.characterCode == code)).take n := by
  unfold fetch_messages
  rw [fetch_messages_sorted_eq db code h]
  simp [hn]

/-!  Concrete fixtures used by the per-claim witnesses and counterexamples. -/

/-- A concrete character row used by the witnesses. -/
def eldrinChar : Character :=
  ⟨1, "Eldrin", "a mystic sage", "eldrin.png", "You are Eldrin, a mystic sage."⟩

/-- A concrete message row of the eldrin conversation, stamped `i`. -/
def mkEldrinMsg (i : Nat) (t : String) : MsgRow :=
  ⟨"eldrin", "eldrin", t, none, i⟩

/-- A concrete database: one user, the character eldrin with one greeting
row, and no messages. -/
def dbEmpty : DB :=
  ⟨[⟨1, "alice", "h:pw"⟩], [("eldrin", eldrinChar)], [("eldrin", "Well met.")], [], 0⟩

/-- The concrete database with three eldrin messages stamped 0, 1, 2. -/
def dbThree : DB :=
  { dbEmpty with
    messages := [mkEldrinMsg 0 "t0", mkEldrinMsg 1 "t1", mkEldrinMsg 2 "t2"], clock := 3 }

/-- The concrete database with eleven eldrin messages stamped 0 through 10. -/
def dbEleven : DB :=
  { dbEmpty with
    messages :=
      [mkEldrinMsg 0 "t0", mkEldrinMsg 1 "t1", mkEldrinMsg 2 "t2", mkEldrinMsg 3 "t3",
       mkEldrinMsg 4 "t4", mkEldrinMsg 5 "t5", mkEldrinMsg 6 "t6", mkEldrinMsg 7 "t7",
       mkEldrinMsg 8 "t8", mkEldrinMsg 9 "t9", mkEldrinMsg 10 "t10"],
    clock := 11 }

/-- A session of a logged-in user with the active character eldrin. -/
def sessAlice : Session := ⟨some 1, some "alice", some "eldrin"⟩

/-- A session with an active character but no user_id. -/
def sessNoUser : Session := ⟨none, none, some "eldrin"⟩

/-- A logged-in session with no active character. -/
def sessNoChar : Session := ⟨some 1, some "alice", none⟩

/-- Generic list fact: filtering for code `t` after erasing every row of
code `t` leaves nothing. -/
theorem filter_erased_self (l : List MsgRow) (t : String) :
    (l.filter (fun m => !(m.characterCode == t))).filter (fun m => m.characterCode == t) = [] := by
  induction l with
  | nil => rfl
  | cons a l ih =>
      by_cases h : a.characterCode = t
      · simp [List.filter_cons, h, ih]
      · simp [List.filter_cons, h, ih]

/-- Generic list fact: erasing every row of code `t` does not change the
rows of a different code `o`. -/
theorem filter_erased_other (l : List MsgRow) (t o : String) (h : ¬ o = t) :
    (l.filter (fun m => !(m.characterCode == t))).filter (fun m => m.characterCode == o) =
      l.filter (fun m => m.characterCode == o) := by
  induction l with
  | nil => rfl
  | cons a l ih =>
      by_cases ha : a.characterCode = t
      · have hao : ¬ a.characterCode = o := by rw [ha]; exact fun e => h e.symm
        have hto : ¬ t = o := fun e => h e.symm
        simp [List.filter_cons, ha, hao, hto, ih]
      · simp [List.filter_cons, ha, ih]

/-- Claim C1: the spec says `fetch(code, limit=N)` returns the last `N`
appended messages.  Evaluating `fetch_messages` at the failing input — three
eldrin messages stamped 0, 1, 2 and `limit = 2` — shows the code returns the
two OLDEST rows (the SQL appends `LIMIT` after `ORDER BY created_at ASC`, so
it truncates the head, not the tail), which differs from the tail window the
claim demands. -/
theorem c1_limit_returns_oldest_not_most_recent :
    fetch_messages dbThree "eldrin" (some 2) = [mkEldrinMsg 0 "t0", mkEldrinMsg 1 "t1"] ∧
    (fetch_messages dbThree "eldrin" none).drop
        ((fetch_messages dbThree "eldrin" none).length - 2) =
      [mkEldrinMsg 1 "t1", mkEldrinMsg 2 "t2"] ∧
    fetch_messages dbThree "eldrin" (some 2) ≠
      (fetch_messages dbThree "eldrin" none).drop
        ((fetch_messages dbThree "eldrin" none).length - 2) := by
  refine ⟨by decide, by decide, by decide⟩

set_option maxRecDepth 100000 in
/-- Claim C2: the spec says the prompt window holds the chronologically-last
10 messages.  Evaluating `send_message` on an eldrin conversation of 11
messages t0..t10 (12 after the new user utterance "u" is stored): the prompt
handed to the backend renders the OLDEST ten messages t0..t9; t10, although
inside the last-10 window, does not occur anywhere in the prompt — deleting
every occurrence of "t10" leaves the prompt unchanged. -/
theorem c2_prompt_window_is_oldest_ten :
    (send_message (fun _ => "ok") dbEleven sessAlice (some "u")).genPrompts =
      [build_prompt "You are Eldrin, a mystic sage."
        ("eldrin: t0\neldrin: t1\neldrin: t2\neldrin: t3\neldrin: t4\neldrin: t5\neldrin: t6\neldrin: t7\neldrin: t8\neldrin: t9")
        "u"] ∧
    py_replace_delete
        ((send_message (fun _ => "ok") dbEleven sessAlice (some "u")).genPrompts.headD "")
        "t10" =
      (send_message (fun _ => "ok") dbEleven sessAlice (some "u")).genPrompts.headD "" := by
  refine ⟨by decide, by decide⟩

/-- Claim C3, counterexample: a request whose session lacks `user_id` but
still holds an active character is NOT rejected — `send_message` carries no
`login_required` wrapper, so it appends two messages and invokes generation
exactly as for a logged-in user, refuting the authentication half of the
claim. -/
theorem c3_counterexample_no_login_check :
    sessNoUser.userId = none ∧
    (send_message (fun _ => "Well met, traveler.") dbEmpty sessNoUser (some "hi")).result =
      .ok "eldrin" "Well met, traveler." (some "eldrin.png") ∧
    (send_message (fun _ => "Well met, traveler.") dbEmpty sessNoUser (some "hi")).db.messages.length =
      dbEmpty.messages.length + 2 ∧
    (send_message (fun _ => "Well met, traveler.") dbEmpty sessNoUser (some "hi")).genPrompts.length =
      1 := by
  refine ⟨rfl, by decide, by decide, by decide⟩

/-- Claim C3, amended: the send-message operation never consults `user_id`;
it is gated only on the session holding an active character code naming an
existing character.  A request whose session lacks an active character fails
with the no-active-character error, with no message appended and generation
never invoked; with an active existing character the operation proceeds
(one generation call, two appended messages) regardless of `user_id`. -/
theorem c3_send_message_gating (gen : String → String) (db : DB) (sess : Session)
    (payload : String) :
    (sess.character = none →
      send_message gen db sess (some payload) =
        ⟨db, .badRequest "No active character session", []⟩) ∧
    (∀ code c, sess.character = some code → (fetch_characters db).lookup code = some c →
      (send_message gen db sess (some payload)).genPrompts.length = 1 ∧
      (send_message gen db sess (some payload)).db.messages.length =
        db.messages.length + 2) := by
  constructor
  · intro h
    simp [send_message, h]
  · intro code c h hc
    simp [send_message, h, hc, store_message]

/-- Claim C3, witness: the no-active-character rejection at a concrete
logged-in session, and the unauthenticated-but-active session proceeding. -/
theorem c3_send_message_gating_witness :
    send_message (fun _ => "x") dbEmpty sessNoChar (some "hi") =
      ⟨dbEmpty, .badRequest "No active character session", []⟩ ∧
    (send_message (fun _ => "x") dbEmpty sessNoUser (some "hi")).genPrompts.length = 1 :=
  ⟨(c3_send_message_gating (fun _ => "x") dbEmpty sessNoChar "hi").1 rfl,
    ((c3_send_message_gating (fun _ => "x") dbEmpty sessNoUser "hi").2 "eldrin" eldrinChar
      rfl rfl).1⟩

/-- Claim C4: evaluating `signup` at the failing input — username "alice"
already present — shows no user row is created but the outcome is the
`crash` path: the duplicate INSERT raises `UniqueViolation` and the handler
`except psycopg2.Error` evaluates the never-imported name `psycopg2`,
raising `NameError`, so the user sees a 500, not the duplicate-username
flash and signup page the claim (and the intent of lines 89-94) describe. -/
theorem c4_duplicate_signup_crashes :
    (dbEmpty.users.filter (fun u => u.username == "alice")).isEmpty = false ∧
    signup (fun p => "h:" ++ p) dbEmpty "alice" "pw" =
      (dbEmpty, .crash "NameError: name psycopg2 is not defined") := by
  refine ⟨by decide, by decide⟩

/-- Claim C5, counterexample: with the backend returning "I understand hi",
the text stored and returned is " hi" — the strip happens BEFORE the phrase
deletion, so deleting a leading "I understand" exposes a leading space and
the final text is not trimmed, refuting the claim as stated. -/
theorem c5_counterexample_not_trimmed :
    (send_message (fun _ => "I understand hi") dbEmpty sessAlice (some "q")).result =
      .ok "eldrin" " hi" (some "eldrin.png") ∧
    ((send_message (fun _ => "I understand hi") dbEmpty sessAlice (some "q")).db.messages.map
        (fun m => m.text)) = ["q", " hi"] ∧
    py_strip " hi" ≠ " hi" := by
  refine ⟨by decide, by decide, by decide⟩

/-- Claim C5, amended: the text stored and returned is the backend text
stripped FIRST and then subjected to single left-to-right deletion passes of
"I understand" and of the I-apostrophe-ll-try phrase (in that order); the
post-processing does happen before the response is stored or returned, but
the result can retain whitespace at the edges (and, in principle,
occurrences of the phrases formed by juxtaposition of deleted fragments). -/
theorem c5_post_process_before_store (gen : String → String) (db : DB) (sess : Session)
    (payload code : String) (c : Character)
    (hch : sess.character = some code)
    (hc : (fetch_characters db).lookup code = some c) :
    ∃ p : String,
      send_message gen db sess (some payload) =
        ⟨store_message (store_message db code "user" (py_strip payload) none) code code
            (post_process (gen p)) (some c.avatar),
          .ok code (post_process (gen p)) (some c.avatar), [p]⟩ := by
  refine ⟨build_prompt c.prompt
    (String.intercalate "\n"
      ((fetch_messages (store_message db code "user" (py_strip payload) none) code
        (some 10)).map (fun m => m.sender ++ ": " ++ m.text)))
    (py_strip payload), ?_⟩
  simp [send_message, hch, hc]

/-- Claim C5, witness: the post-processing pipeline at a concrete input. -/
theorem c5_post_process_before_store_witness :
    ∃ p : String,
      send_message (fun _ => " I understand ok ") dbEmpty sessAlice (some "m") =
        ⟨store_message (store_message dbEmpty "eldrin" "user" (py_strip "m") none) "eldrin"
            "eldrin" (post_process ((fun _ : String => " I understand ok ") p))
            (some eldrinChar.avatar),
          .ok "eldrin" (post_process ((fun _ : String => " I understand ok ") p))
            (some eldrinChar.avatar), [p]⟩ :=
  c5_post_process_before_store (fun _ => " I understand ok ") dbEmpty sessAlice "m" "eldrin"
    eldrinChar rfl rfl

/-- Claim C6: with 15 calls per minute the interval is 4 seconds.  A call
arriving strictly less than 4 seconds after the recorded start of the
previous one has its effective start delayed to exactly the end of the
interval — a sleep of exactly the remaining `4 - elapsed` — and the shared
`last_called` is set to that unblocked start instant (not the completion
instant) before the body runs; a call arriving once the interval has
elapsed starts immediately with `last_called` set to its own start. -/
theorem c6_rate_limit_spacing (last now : ℚ) :
    (now - last < 4 →
      rate_limit 15 last now = ⟨last + 4, last + 4⟩ ∧
      (rate_limit 15 last now).bodyStart - now = 4 - (now - last)) ∧
    (4 ≤ now - last → rate_limit 15 last now = ⟨now, now⟩) := by
  have hi : (60 : ℚ) / 15 = 4 := by norm_num
  constructor
  · intro h
    have h2 : now - last < 60 / 15 := by rw [hi]; exact h
    simp only [rate_limit, if_pos h2]
    refine ⟨?_, by rw [hi]; ring⟩
    simp only [RateLimitResult.mk.injEq]
    constructor <;> (rw [hi]; ring)
  · intro h
    have h2 : ¬ now - last < 60 / 15 := by rw [hi]; exact not_lt.mpr h
    simp only [rate_limit, if_neg h2]

/-- Claim C6, witness: a call at time 1 after a start recorded at 0 is
pushed to time 4; a call at time 10 runs immediately. -/
theorem c6_rate_limit_spacing_witness :
    rate_limit 15 0 1 = ⟨0 + 4, 0 + 4⟩ ∧ rate_limit 15 0 10 = ⟨10, 10⟩ :=
  ⟨((c6_rate_limit_spacing 0 1).1 (by norm_num)).1,
    (c6_rate_limit_spacing 0 10).2 (by norm_num)⟩

/-- Claim C7: a login attempt with a username absent from the users table
and a login attempt whose username exists but whose password fails the hash
check produce literally the same result — the one failure variant carrying
the one flash message "Invalid username or password." — for every hash
checker and every store, so the caller cannot distinguish the two causes. -/
theorem c7_login_failures_indistinguishable (checkHash : String → String → Bool) (db : DB)
    (u1 p1 u2 p2 : String) (r : UserRow)
    (h1 : db.users.find? (fun x => x.username == py_strip u1) = none)
    (h2 : db.users.find? (fun x => x.username == py_strip u2) = some r)
    (h3 : checkHash r.passwordHash (py_strip p2) = false) :
    login checkHash db u1 p1 = login checkHash db u2 p2 ∧
    login checkHash db u1 p1 = LoginResult.failure "Invalid username or password." := by
  simp [login, h1, h2, h3]

/-- Claim C7, witness: unknown user "bob" versus "alice" with a wrong
password, against the concrete store and a concrete hash checker. -/
theorem c7_login_failures_indistinguishable_witness :
    login (fun h p => h == "h:" ++ p) dbEmpty "bob" "pw" =
      login (fun h p => h == "h:" ++ p) dbEmpty "alice" "wrong" ∧
    login (fun h p => h == "h:" ++ p) dbEmpty "bob" "pw" =
      LoginResult.failure "Invalid username or password." :=
  c7_login_failures_indistinguishable (fun h p => h == "h:" ++ p) dbEmpty "bob" "pw" "alice"
    "wrong" ⟨1, "alice", "h:pw"⟩ (by decide) (by decide) (by decide)

/-- Claim C8: on a character with zero stored messages, the first chat view
stores exactly one greeting message — sender the character code itself,
text the name wrapped in the intently-looking frame around the fetched
greeting, stamped with the current clock — and renders that single message;
an immediately repeated chat view leaves the database and session unchanged
and again renders exactly that one message, so seeding happens at most once
per empty-to-nonempty transition. -/
theorem c8_chat_seeds_exactly_once (db : DB) (sess : Session) (code : String)
    (choose choose2 : Nat) (c : Character) (uid : Nat)
    (hinv : DBInv db) (hu : sess.userId = some uid)
    (hc : (fetch_characters db).lookup code = some c)
    (hempty : db.messages.filter (fun m => m.characterCode == code) = []) :
    chat db sess code choose =
      (store_message db code code
          ("*" ++ c.name ++ " looks at you intently* " ++ fetch_greetings db code choose)
          (some c.avatar),
        { sess with character := some code },
        ChatOutcome.render c
          [⟨code, code,
            "*" ++ c.name ++ " looks at you intently* " ++ fetch_greetings db code choose,
            some c.avatar, db.clock⟩]) ∧
    chat (chat db sess code choose).1 (chat db sess code choose).2.1 code choose2 =
      ((chat db sess code choose).1, (chat db sess code choose).2.1,
        ChatOutcome.render c
          [⟨code, code,
            "*" ++ c.name ++ " looks at you intently* " ++ fetch_greetings db code choose,
            some c.avatar, db.clock⟩]) := by
  have hu2 : ¬ sess.userId = none := by rw [hu]; simp
  have hfetch : fetch_messages db code none = [] := by
    rw [fetch_messages_none_eq db code hinv, hempty]
  have hinv1 : DBInv (store_message db code code
      ("*" ++ c.name ++ " looks at you intently* " ++ fetch_greetings db code choose)
      (some c.avatar)) :=
    DBInv_store db _ _ _ _ hinv
  have hfetch1 : fetch_messages (store_message db code code
        ("*" ++ c.name ++ " looks at you intently* " ++ fetch_greetings db code choose)
        (some c.avatar)) code none =
      [⟨code, code,
        "*" ++ c.name ++ " looks at you intently* " ++ fetch_greetings db code choose,
        some c.avatar, db.clock⟩] := by
    rw [fetch_messages_none_eq _ _ hinv1]
    simp [store_message, List.filter_append, hempty]
  have h1 : chat db sess code choose =
      (store_message db code code
          ("*" ++ c.name ++ " looks at you intently* " ++ fetch_greetings db code choose)
          (some c.avatar),
        { sess with character := some code },
        ChatOutcome.render c
          [⟨code, code,
            "*" ++ c.name ++ " looks at you intently* " ++ fetch_greetings db code choose,
            some c.avatar, db.clock⟩]) := by
    simp only [chat, if_neg hu2, hc, hfetch, hfetch1, List.isEmpty_nil, if_true]
  refine ⟨h1, ?_⟩
  rw [h1]
  have hc1 : (fetch_characters (store_message db code code
      ("*" ++ c.name ++ " looks at you intently* " ++ fetch_greetings db code choose)
      (some c.avatar))).lookup code = some c := hc
  simp only [chat, hu2, if_neg, hc1, hfetch1]
  simp [hu2]

/-- Claim C8, witness: the empty eldrin conversation is seeded exactly once
across two successive chat views. -/
theorem c8_chat_seeds_exactly_once_witness :
    chat dbEmpty sessAlice "eldrin" 0 =
      (store_message dbEmpty "eldrin" "eldrin"
          ("*" ++ eldrinChar.name ++ " looks at you intently* " ++
            fetch_greetings dbEmpty "eldrin" 0)
          (some eldrinChar.avatar),
        { sessAlice with character := some "eldrin" },
        ChatOutcome.render eldrinChar
          [⟨"eldrin", "eldrin",
            "*" ++ eldrinChar.name ++ " looks at you intently* " ++
              fetch_greetings dbEmpty "eldrin" 0,
            some eldrinChar.avatar, dbEmpty.clock⟩]) ∧
    chat (chat dbEmpty sessAlice "eldrin" 0).1 (chat dbEmpty sessAlice "eldrin" 0).2.1
        "eldrin" 1 =
      ((chat dbEmpty sessAlice "eldrin" 0).1, (chat dbEmpty sessAlice "eldrin" 0).2.1,
        ChatOutcome.render eldrinChar
          [⟨"eldrin", "eldrin",
            "*" ++ eldrinChar.name ++ " looks at you intently* " ++
              fetch_greetings dbEmpty "eldrin" 0,
            some eldrinChar.avatar, dbEmpty.clock⟩]) :=
  c8_chat_seeds_exactly_once dbEmpty sessAlice "eldrin" 0 1 eldrinChar 1 (by constructor <;> decide)
    rfl rfl (by decide)

/-- Helper for claim C9: what the reset body does once the target is
resolved to an existing character. -/
theorem new_story_core_spec (db : DB) (req : String) (choose : Nat) (c : Character)
    (hc : (fetch_characters db).lookup req = some c) :
    (new_story_core db req choose).2 = NewStoryOutcome.redirectChat req ∧
    (new_story_core db req choose).1.messages.filter (fun m => m.characterCode == req) =
      [⟨req, req, "*" ++ c.name ++ " looks at you intently* " ++ fetch_greetings db req choose,
        some c.avatar, db.clock⟩] ∧
    ∀ other : String, other ≠ req →
      (new_story_core db req choose).1.messages.filter (fun m => m.characterCode == other) =
        db.messages.filter (fun m => m.characterCode == other) := by
  refine ⟨by simp [new_story_core, hc], ?_, ?_⟩
  · simp only [new_story_core, hc, store_message, List.filter_append, filter_erased_self]
    simp [filter_erased_self]
    rfl
  · intro other hother
    have hro : ¬ req = other := fun e => hother e.symm
    simp [new_story_core, hc, store_message, List.filter_append,
      filter_erased_other db.messages req other hother, hro]

/-- Claim C9: `new_story` leaves exactly one message — a fresh seeded
greeting attributed to the resolved character — for that character,
whatever the prior count; every other character keeps its messages
untouched; an omitted or unknown character query parameter resolves to the
fixed fallback "eldrin". -/
theorem c9_new_story_exactly_one (db : DB) (reqCharacter : Option String) (choose : Nat)
    (ce : Character) (he : (fetch_characters db).lookup "eldrin" = some ce) :
    ∃ c : Character,
      (fetch_characters db).lookup (new_story_target db reqCharacter) = some c ∧
      (new_story db reqCharacter choose).2 =
        NewStoryOutcome.redirectChat (new_story_target db reqCharacter) ∧
      (new_story db reqCharacter choose).1.messages.filter
          (fun m => m.characterCode == new_story_target db reqCharacter) =
        [⟨new_story_target db reqCharacter, new_story_target db reqCharacter,
          "*" ++ c.name ++ " looks at you intently* " ++
            fetch_greetings db (new_story_target db reqCharacter) choose,
          some c.avatar, db.clock⟩] ∧
      (∀ other : String, other ≠ new_story_target db reqCharacter →
        (new_story db reqCharacter choose).1.messages.filter
            (fun m => m.characterCode == other) =
          db.messages.filter (fun m => m.characterCode == other)) ∧
      (reqCharacter = none → new_story_target db reqCharacter = "eldrin") ∧
      (∀ r, reqCharacter = some r → (fetch_characters db).lookup r = none →
        new_story_target db reqCharacter = "eldrin") := by
  rcases hl : (fetch_characters db).lookup (reqCharacter.getD "eldrin") with _ | c0
  · have ht : new_story_target db reqCharacter = "eldrin" := by
      simp [new_story_target, hl]
    have hcore := new_story_core_spec db "eldrin" choose ce he
    refine ⟨ce, ?_, ?_, ?_, ?_, fun _ => ht, fun _ _ _ => ht⟩
    · rw [ht]; exact he
    · unfold new_story; rw [ht]; exact hcore.1
    · unfold new_story; rw [ht]; exact hcore.2.1
    · unfold new_story; rw [ht]; exact hcore.2.2
  · have ht : new_story_target db reqCharacter = reqCharacter.getD "eldrin" := by
      simp [new_story_target, hl]
    have hcore := new_story_core_spec db (reqCharacter.getD "eldrin") choose c0 hl
    refine ⟨c0, ?_, ?_, ?_, ?_, ?_, ?_⟩
    · rw [ht]; exact hl
    · unfold new_story; rw [ht]; exact hcore.1
    · unfold new_story; rw [ht]; exact hcore.2.1
    · unfold new_story; rw [ht]; exact hcore.2.2
    · intro h
      rw [ht, h]
      rfl
    · intro r hr hnone
      rw [hr] at hl
      simp only [Option.getD_some] at hl
      rw [hnone] at hl
      exact absurd hl (by simp)

/-- Claim C9, witness: resetting with the unknown code "unknown" on the
three-message store falls back to eldrin and leaves exactly the one fresh
greeting. -/
theorem c9_new_story_exactly_one_witness :
    ∃ c : Character,
      (fetch_characters dbThree).lookup (new_story_target dbThree (some "unknown")) = some c ∧
      (new_story dbThree (some "unknown") 0).2 =
        NewStoryOutcome.redirectChat (new_story_target dbThree (some "unknown")) ∧
      (new_story dbThree (some "unknown") 0).1.messages.filter
          (fun m => m.characterCode == new_story_target dbThree (some "unknown")) =
        [⟨new_story_target dbThree (some "unknown"), new_story_target dbThree (some "unknown"),
          "*" ++ c.name ++ " looks at you intently* " ++
            fetch_greetings dbThree (new_story_target dbThree (some "unknown")) 0,
          some c.avatar, dbThree.clock⟩] ∧
      (∀ other : String, other ≠ new_story_target dbThree (some "unknown") →
        (new_story dbThree (some "unknown") 0).1.messages.filter
            (fun m => m.characterCode == other) =
          dbThree.messages.filter (fun m => m.characterCode == other)) ∧
      (some "unknown" = none → new_story_target dbThree (some "unknown") = "eldrin") ∧
      (∀ r, some "unknown" = some r → (fetch_characters dbThree).lookup r = none →
        new_story_target dbThree (some "unknown") = "eldrin") :=
  c9_new_story_exactly_one dbThree (some "unknown") 0 eldrinChar (by decide)

/-- Claim C10: a limit of 0 is falsy in Python, so `if limit:` skips the
LIMIT clause and `fetch(code, limit=0)` returns the entire ascending message
sequence, identical to `fetch(code)` with no limit (the only falsy limit
values in the model are `none` and `some 0`). -/
theorem c10_limit_zero_returns_all (db : DB) (code : String) :
    fetch_messages db code (some 0) = fetch_messages db code none := by
  simp [fetch_messages]
